import Mathlib

/-
Verification of the inertia-plausibility engine of the urdf-debugger
repository.  The Python sources `physcheck/analysis/inertia.py`,
`physcheck/urdf/loader.py` and `physcheck/scripts/fix_inertials.py` are
shallowly embedded below.  Python/NumPy floats are modelled by the type
`F` (an exact rational together with +inf, -inf and NaN); float
comparisons follow IEEE semantics (every comparison with NaN is false),
and the symmetric eigensolver `np.linalg.eigvalsh` is abstracted as an
explicit function parameter `eig` of the embedded check engine.
-/

namespace PhysCheck

/-- Model of a Python/NumPy double: an exact rational, or one of the
IEEE special values +inf, -inf, NaN.  Rounding is not modelled; the
checks under study compare and combine values whose exactness is not at
stake in any claim. -/
inductive F where
  | fin (q : ℚ)
  | inf
  | ninf
  | nan
deriving DecidableEq, Repr

/-- `math.isfinite` / `np.isfinite`. -/
def F.isfinite : F → Bool
  | .fin _ => true
  | _ => false

/-- Python truthiness of a float: falsy exactly when it equals 0.0
(NaN and the infinities are truthy). -/
def F.truthy : F → Bool
  | .fin q => decide (q ≠ 0)
  | _ => true

/-- IEEE negation (the sign of zero is not modelled). -/
def F.neg : F → F
  | .fin q => .fin (-q)
  | .inf => .ninf
  | .ninf => .inf
  | .nan => .nan

/-- IEEE absolute value. -/
def F.abs : F → F
  | .fin q => .fin |q|
  | .inf => .inf
  | .ninf => .inf
  | .nan => .nan

/-- IEEE addition: NaN propagates, inf + (-inf) = NaN. -/
def F.add : F → F → F
  | .nan, _ => .nan
  | _, .nan => .nan
  | .inf, .ninf => .nan
  | .ninf, .inf => .nan
  | .inf, _ => .inf
  | _, .inf => .inf
  | .ninf, _ => .ninf
  | _, .ninf => .ninf
  | .fin a, .fin b => .fin (a + b)

/-- IEEE subtraction, defined as x + (-y) as in IEEE-754. -/
def F.sub (x y : F) : F := F.add x (F.neg y)

/-- IEEE multiplication: NaN propagates, inf * 0 = NaN, signs as usual. -/
def F.mul : F → F → F
  | .nan, _ => .nan
  | _, .nan => .nan
  | .fin a, .fin b => .fin (a * b)
  | .inf, .fin b => if b = 0 then .nan else if 0 < b then .inf else .ninf
  | .fin a, .inf => if a = 0 then .nan else if 0 < a then .inf else .ninf
  | .ninf, .fin b => if b = 0 then .nan else if 0 < b then .ninf else .inf
  | .fin a, .ninf => if a = 0 then .nan else if 0 < a then .ninf else .inf
  | .inf, .inf => .inf
  | .ninf, .ninf => .inf
  | .inf, .ninf => .ninf
  | .ninf, .inf => .ninf

/-- IEEE division: NaN propagates, finite/0 gives a signed infinity
(0/0 gives NaN), finite/inf gives 0, inf/inf gives NaN.  The sign of
zero is not modelled, so inf divided by zero yields +inf. -/
def F.div : F → F → F
  | .nan, _ => .nan
  | _, .nan => .nan
  | .fin a, .fin b =>
      if b = 0 then (if a = 0 then .nan else if 0 < a then .inf else .ninf)
      else .fin (a / b)
  | .fin _, .inf => .fin 0
  | .fin _, .ninf => .fin 0
  | .inf, .fin b => if 0 ≤ b then .inf else .ninf
  | .ninf, .fin b => if 0 ≤ b then .ninf else .inf
  | .inf, .inf => .nan
  | .inf, .ninf => .nan
  | .ninf, .inf => .nan
  | .ninf, .ninf => .nan

/-- Float comparison `<=`: any comparison involving NaN is false. -/
def F.ble : F → F → Bool
  | .nan, _ => false
  | _, .nan => false
  | .ninf, _ => true
  | _, .inf => true
  | .inf, _ => false
  | _, .ninf => false
  | .fin a, .fin b => decide (a ≤ b)

/-- Float comparison `<`: any comparison involving NaN is false. -/
def F.blt : F → F → Bool
  | .nan, _ => false
  | _, .nan => false
  | .ninf, .ninf => false
  | .ninf, _ => true
  | _, .ninf => false
  | .inf, _ => false
  | _, .inf => true
  | .fin a, .fin b => decide (a < b)

/-- Float equality `==`: NaN is equal to nothing, both infinities are
equal to themselves. -/
def F.beq : F → F → Bool
  | .fin a, .fin b => decide (a = b)
  | .inf, .inf => true
  | .ninf, .ninf => true
  | _, _ => false

/-- The sorting order used by `np.sort` on floats: NaN values are
placed last; otherwise the numeric order. -/
def F.npLe : F → F → Bool
  | _, .nan => true
  | .nan, _ => false
  | .ninf, _ => true
  | _, .ninf => false
  | _, .inf => true
  | .inf, _ => false
  | .fin a, .fin b => decide (a ≤ b)

/-- `np.sort` of a length-3 array, as a three-comparator sorting
network over `F.npLe`. -/
def sort3 (t : F × F × F) : F × F × F :=
  let p1 := if F.npLe t.1 t.2.1 then (t.1, t.2.1) else (t.2.1, t.1)
  let p2 := if F.npLe p1.2 t.2.2 then (p1.2, t.2.2) else (t.2.2, p1.2)
  let p3 := if F.npLe p1.1 p2.1 then (p1.1, p2.1) else (p2.1, p1.1)
  (p3.1, p3.2, p2.2)

/-- Python `max(a, b)`: returns `b` when `b > a`, else `a` (so a NaN
first argument is returned unchanged). -/
def pyMax2 (a b : F) : F := if F.blt a b then b else a

/-- Python `min(xs)` over a non-empty list, given as head and tail:
keeps the current minimum unless a strictly smaller element appears
(comparisons with NaN being false, a NaN head is never displaced). -/
def pyMinList (x : F) (xs : List F) : F :=
  xs.foldl (fun m v => if F.blt v m then v else m) x

/-- Python `max(xs)` over a non-empty list, given as head and tail. -/
def pyMaxList (x : F) (xs : List F) : F :=
  xs.foldl (fun m v => if F.blt m v then v else m) x

/-! ## Data model (physcheck/urdf/loader.py) -/

/-- `Origin` dataclass: position and roll-pitch-yaw. -/
structure Origin where
  xyz : F × F × F
  rpy : F × F × F
deriving DecidableEq, Repr

/-- `Inertial` dataclass.  The loader always stores a parsed float in
`mass` (the dataclass field is typed `float`), so `mass` is an `F`;
the engine's defensive `mass is None` test is noted where it occurs. -/
structure Inertial where
  mass : F
  com : F × F × F
  inertia : F × F × F × F × F × F
deriving DecidableEq, Repr

/-- `Geometry` dataclass: a type tag plus optional fields. -/
structure Geometry where
  type : String
  size : Option (F × F × F) := none
  radius : Option F := none
  length : Option F := none
  filename : Option String := none
deriving DecidableEq, Repr

/-- `Visual` dataclass. -/
structure Visual where
  origin : Origin
  geometry : Geometry
  material : Option String := none
deriving DecidableEq, Repr

/-- `Collision` dataclass. -/
structure Collision where
  origin : Origin
  geometry : Geometry
deriving DecidableEq, Repr

/-- `Link` dataclass. -/
structure Link where
  name : String
  inertial : Option Inertial := none
  visuals : List Visual := []
  collisions : List Collision := []
deriving DecidableEq, Repr

/-- Python truthiness of an `Optional[float]` field: `None` and `0.0`
are falsy, every other float (including NaN and inf) is truthy. -/
def optTruthy : Option F → Bool
  | none => false
  | some x => F.truthy x

/-- Python truthiness of an `Optional[Tuple[float,float,float]]` field:
`None` is falsy and any 3-tuple is truthy (tuples are non-empty). -/
def optTupleTruthy : Option (F × F × F) → Bool
  | none => false
  | some _ => true

/-! ## Check records (physcheck/analysis/inertia.py) -/

/-- A value stored in a check's `details` mapping. -/
inductive DVal where
  | num (x : F)
  | nums (xs : List F)
deriving DecidableEq, Repr

/-- `InertiaCheck` dataclass. -/
structure InertiaCheck where
  check : String
  passed : Bool
  severity : String
  message : String
  details : List (String × DVal) := []
deriving DecidableEq, Repr

/-- A symmetric 3x3 matrix of floats, with explicit entries. -/
structure Mat3 where
  a11 : F
  a12 : F
  a13 : F
  a21 : F
  a22 : F
  a23 : F
  a31 : F
  a32 : F
  a33 : F
deriving DecidableEq, Repr

/-- The float 1e-9 used as tolerance throughout the engine. -/
def tol9 : F := F.fin (1 / 1000000000)

/-- The float 1e-12 used by the zero-mass-inertia scan and the
rewriter's noise threshold. -/
def tol12 : F := F.fin (1 / 1000000000000)

/-- `_build_inertia_matrix`: assemble the symmetric 3x3 tensor from the
six scalars (ixx, ixy, ixz, iyy, iyz, izz). -/
def _build_inertia_matrix (entries : F × F × F × F × F × F) : Mat3 :=
  let (ixx, ixy, ixz, iyy, iyz, izz) := entries
  { a11 := ixx, a12 := ixy, a13 := ixz
    a21 := ixy, a22 := iyy, a23 := iyz
    a31 := ixz, a32 := iyz, a33 := izz }

/-- `np.any(np.abs(matrix) > t)` over the nine entries. -/
def matAnyAbsGt (m : Mat3) (t : F) : Bool :=
  F.blt t (F.abs m.a11) || F.blt t (F.abs m.a12) || F.blt t (F.abs m.a13) ||
  F.blt t (F.abs m.a21) || F.blt t (F.abs m.a22) || F.blt t (F.abs m.a23) ||
  F.blt t (F.abs m.a31) || F.blt t (F.abs m.a32) || F.blt t (F.abs m.a33)

/-! ## Geometry-to-inertia estimator (analysis/inertia.py, lines 192-229) -/

/-- The exact rational value of the binary64 constant `np.pi`. -/
def piQ : ℚ := 884279719003555 / 281474976710656

/-- `np.pi` as a float value. -/
def piF : F := F.fin piQ

/-- `_box_inertia`: principal moments and implied density of a uniform
box of the given size and mass. -/
def _box_inertia (size : F × F × F) (mass : F) : (F × F × F) × F :=
  let (lx, ly, lz) := size
  let volume := F.mul (F.mul lx ly) lz
  let density := if F.blt (F.fin 0) volume then F.div mass volume else F.nan
  let ixx := F.mul (F.div mass (F.fin 12)) (F.add (F.mul ly ly) (F.mul lz lz))
  let iyy := F.mul (F.div mass (F.fin 12)) (F.add (F.mul lx lx) (F.mul lz lz))
  let izz := F.mul (F.div mass (F.fin 12)) (F.add (F.mul lx lx) (F.mul ly ly))
  ((ixx, iyy, izz), density)

/-- `_cylinder_inertia`: principal moments (axis = local Z) and implied
density of a uniform cylinder. -/
def _cylinder_inertia (radius length mass : F) : (F × F × F) × F :=
  let volume := F.mul (F.mul piF (F.mul radius radius)) length
  let density := if F.blt (F.fin 0) volume then F.div mass volume else F.nan
  let ixx := F.mul (F.div mass (F.fin 12))
    (F.add (F.mul (F.fin 3) (F.mul radius radius)) (F.mul length length))
  let izz := F.mul (F.mul (F.fin (1 / 2)) mass) (F.mul radius radius)
  ((ixx, ixx, izz), density)

/-- `_sphere_inertia`: principal moments and implied density of a
uniform solid sphere. -/
def _sphere_inertia (radius mass : F) : (F × F × F) × F :=
  let volume := F.mul (F.mul (F.fin (4 / 3)) piF) (F.mul (F.mul radius radius) radius)
  let density := if F.blt (F.fin 0) volume then F.div mass volume else F.nan
  let moment := F.mul (F.mul (F.fin (2 / 5)) mass) (F.mul radius radius)
  ((moment, moment, moment), density)

/-- `_approximate_collision_inertia`: linear scan of the collision list;
the first entry whose geometry is a box with a `size`, a cylinder with
truthy `radius` and `length`, or a sphere with truthy `radius` yields an
estimate; otherwise the scan continues (Python tests the fields for
truthiness, so a zero radius or length rejects the entry). -/
def _approximate_collision_inertia : List Collision → F → Option ((F × F × F) × F)
  | [], _ => none
  | c :: rest, mass =>
    let geom := c.geometry
    match geom.type, geom.size, geom.radius, geom.length with
    | "box", some sz, _, _ => some (_box_inertia sz mass)
    | "cylinder", _, some r, some l =>
        if F.truthy r && F.truthy l then some (_cylinder_inertia r l mass)
        else _approximate_collision_inertia rest mass
    | "sphere", _, some r, _ =>
        if F.truthy r then some (_sphere_inertia r mass)
        else _approximate_collision_inertia rest mass
    | _, _, _, _ => _approximate_collision_inertia rest mass

/-! ## Plausibility check engine (analysis/inertia.py, lines 25-189) -/

/-- `_check_triangle_inequality`: sort the eigenvalues ascending; fail
if any is below the tolerance; otherwise require each to be at most the
tolerance-padded sum of the other two. -/
def _check_triangle_inequality (eigvals : F × F × F) (tol : F) : Bool :=
  let vals := sort3 eigvals
  let a := vals.1
  let b := vals.2.1
  let c := vals.2.2
  if F.blt a tol || F.blt b tol || F.blt c tol then false
  else
    F.ble a (F.add (F.add b c) tol) && F.ble b (F.add (F.add a c) tol) &&
      F.ble c (F.add (F.add a b) tol)

/-- `_check_eigenvalue_ratio` (default `max_ratio` 1e3): the largest
eigenvalue over the smaller of the smallest eigenvalue clamped below by
1e-9 (Python `max(vals[0], 1e-9)`). -/
def _check_eigenvalue_ratio (eigvals : F × F × F) : Bool × List (String × DVal) :=
  let vals := sort3 eigvals
  let min_val := pyMax2 vals.1 tol9
  let max_val := vals.2.2
  let r := F.div max_val min_val
  (F.ble r (F.fin 1000),
    [("max", DVal.num max_val), ("min", DVal.num min_val), ("ratio", DVal.num r)])

/-- The ratio-collecting loop of `_check_geometry_consistency`: walk the
positionally paired sorted triples, skip a pair when either value is
below 1e-9 (float comparison, so NaN values are never skipped), and
collect actual/expected. -/
def _gc_ratio_list (actualSorted expectedSorted : F × F × F) : List F :=
  [(actualSorted.1, expectedSorted.1),
   (actualSorted.2.1, expectedSorted.2.1),
   (actualSorted.2.2, expectedSorted.2.2)].filterMap
    (fun p => if F.blt p.2 tol9 || F.blt p.1 tol9 then none else some (F.div p.1 p.2))

/-- `_check_geometry_consistency`: `None` when the mass is not usable
(the source's `mass is None or mass <= 0.0`; the dataclass always holds
a float, and the float comparison leaves a NaN mass in play), when no
collision yields an estimate, or when no ratio survives the 1e-9
screen; otherwise a warning/info check on the min/max ratio band. -/
def _check_geometry_consistency (link : Link) (mass : F) (eigvals : F × F × F) :
    Option InertiaCheck :=
  if F.ble mass (F.fin 0) then none
  else
    match _approximate_collision_inertia link.collisions mass with
    | none => none
    | some (expected, density) =>
      let actual_sorted := sort3 eigvals
      let expected_sorted := sort3 expected
      match _gc_ratio_list actual_sorted expected_sorted with
      | [] => none
      | r :: rs =>
        let min_r := pyMinList r rs
        let max_r := pyMaxList r rs
        let ok := F.ble (F.fin (1 / 5)) min_r && F.ble max_r (F.fin 5)
        some
          { check := "geometry_consistency"
            passed := ok
            severity := if ok then "info" else "warning"
            message :=
              if ok then "Inertia aligns with collision geometry estimate."
              else "Inertia deviates from collision geometry estimate."
            details :=
              [("expected_eigenvalues",
                  DVal.nums [expected_sorted.1, expected_sorted.2.1, expected_sorted.2.2]),
               ("actual_eigenvalues",
                  DVal.nums [actual_sorted.1, actual_sorted.2.1, actual_sorted.2.2]),
               ("ratio_range", DVal.nums [min_r, max_r]),
               ("density_estimate", DVal.num density)] }

/-- `evaluate_link_inertia`, with `np.linalg.eigvalsh` abstracted as the
total function parameter `eig`.  A link without an inertial yields the
single failing `inertial_present` check; otherwise the battery appends
one mass check (the source's if/elif/else makes the three mass branches
mutually exclusive; `mass is None` cannot fire since the dataclass field
is a float), the conditional `zero_mass_inertia` check, the three
eigenvalue checks, and the optional geometry check. -/
def evaluate_link_inertia (eig : Mat3 → F × F × F) (link : Link) : List InertiaCheck :=
  match link.inertial with
  | none =>
      [{ check := "inertial_present", passed := false, severity := "warning"
         message := "Link has no <inertial> definition." }]
  | some inertial =>
    let mass := inertial.mass
    let matrix := _build_inertia_matrix inertial.inertia
    let massCheck : InertiaCheck :=
      if !F.isfinite mass then
        { check := "mass_finite", passed := false, severity := "error"
          message := "Link mass is missing or non-finite."
          details := [("mass", DVal.num mass)] }
      else if F.ble mass (F.fin 0) then
        { check := "mass_positive", passed := false, severity := "error"
          message := "Link mass must be positive."
          details := [("mass", DVal.num mass)] }
      else
        { check := "mass_positive", passed := true, severity := "info"
          message := "Mass is positive."
          details := [("mass", DVal.num mass)] }
    let zeroChecks : List InertiaCheck :=
      if F.beq mass (F.fin 0) && matAnyAbsGt matrix tol12 then
        [{ check := "zero_mass_inertia", passed := false, severity := "error"
           message := "Zero-mass link has non-zero inertia tensor." }]
      else []
    let eigvals := eig matrix
    let eigList := [eigvals.1, eigvals.2.1, eigvals.2.2]
    let pdOk := F.blt tol9 eigvals.1 && F.blt tol9 eigvals.2.1 && F.blt tol9 eigvals.2.2
    let pdCheck : InertiaCheck :=
      { check := "positive_definite", passed := pdOk
        severity := if !pdOk then "error" else "info"
        message :=
          if pdOk then "Inertia tensor is positive definite."
          else "Inertia tensor is not positive definite."
        details := [("eigenvalues", DVal.nums eigList)] }
    let triOk := _check_triangle_inequality eigvals tol9
    let triCheck : InertiaCheck :=
      { check := "triangle_inequality", passed := triOk
        severity := if !triOk then "error" else "info"
        message :=
          if triOk then "Triangle inequalities satisfied."
          else "Triangle inequality violated for principal moments."
        details := [("eigenvalues", DVal.nums eigList)] }
    let ratioResult := _check_eigenvalue_ratio eigvals
    let ratioCheck : InertiaCheck :=
      { check := "eigenvalue_ratio", passed := ratioResult.1
        severity := if !ratioResult.1 then "warning" else "info"
        message :=
          if ratioResult.1 then "Eigenvalue ratio within bounds."
          else "Eigenvalue ratio exceeds recommended threshold."
        details := ratioResult.2 }
    [massCheck] ++ zeroChecks ++ [pdCheck, triCheck, ratioCheck] ++
      (_check_geometry_consistency link mass eigvals).toList

/-- `summarize_model_inertia`: the per-link report mapping, as an
association list in link order (the source's dict comprehension). -/
def summarize_model_inertia (eig : Mat3 → F × F × F) (links : List Link) :
    List (String × List InertiaCheck) :=
  links.map (fun l => (l.name, evaluate_link_inertia eig l))

/-! ## Matrix algebra used by the rewriter (scripts/fix_inertials.py) -/

/-- Matrix product `A @ B`, each dot product summed left to right as
NumPy does. -/
def matMul (a b : Mat3) : Mat3 :=
  { a11 := F.add (F.add (F.mul a.a11 b.a11) (F.mul a.a12 b.a21)) (F.mul a.a13 b.a31)
    a12 := F.add (F.add (F.mul a.a11 b.a12) (F.mul a.a12 b.a22)) (F.mul a.a13 b.a32)
    a13 := F.add (F.add (F.mul a.a11 b.a13) (F.mul a.a12 b.a23)) (F.mul a.a13 b.a33)
    a21 := F.add (F.add (F.mul a.a21 b.a11) (F.mul a.a22 b.a21)) (F.mul a.a23 b.a31)
    a22 := F.add (F.add (F.mul a.a21 b.a12) (F.mul a.a22 b.a22)) (F.mul a.a23 b.a32)
    a23 := F.add (F.add (F.mul a.a21 b.a13) (F.mul a.a22 b.a23)) (F.mul a.a23 b.a33)
    a31 := F.add (F.add (F.mul a.a31 b.a11) (F.mul a.a32 b.a21)) (F.mul a.a33 b.a31)
    a32 := F.add (F.add (F.mul a.a31 b.a12) (F.mul a.a32 b.a22)) (F.mul a.a33 b.a32)
    a33 := F.add (F.add (F.mul a.a31 b.a13) (F.mul a.a32 b.a23)) (F.mul a.a33 b.a33) }

/-- Matrix transpose `M.T`. -/
def transpose (m : Mat3) : Mat3 :=
  { a11 := m.a11, a12 := m.a21, a13 := m.a31
    a21 := m.a12, a22 := m.a22, a23 := m.a32
    a31 := m.a13, a32 := m.a23, a33 := m.a33 }

/-- Entrywise matrix sum. -/
def matAdd (a b : Mat3) : Mat3 :=
  { a11 := F.add a.a11 b.a11, a12 := F.add a.a12 b.a12, a13 := F.add a.a13 b.a13
    a21 := F.add a.a21 b.a21, a22 := F.add a.a22 b.a22, a23 := F.add a.a23 b.a23
    a31 := F.add a.a31 b.a31, a32 := F.add a.a32 b.a32, a33 := F.add a.a33 b.a33 }

/-- Scalar times matrix. -/
def matScale (c : F) (m : Mat3) : Mat3 :=
  { a11 := F.mul c m.a11, a12 := F.mul c m.a12, a13 := F.mul c m.a13
    a21 := F.mul c m.a21, a22 := F.mul c m.a22, a23 := F.mul c m.a23
    a31 := F.mul c m.a31, a32 := F.mul c m.a32, a33 := F.mul c m.a33 }

/-- `np.diag` of a 3-vector. -/
def diagM (d : F × F × F) : Mat3 :=
  { a11 := d.1, a12 := F.fin 0, a13 := F.fin 0
    a21 := F.fin 0, a22 := d.2.1, a23 := F.fin 0
    a31 := F.fin 0, a32 := F.fin 0, a33 := d.2.2 }

/-- The boolean-mask assignment `sym[np.abs(sym) < tol] = 0.0`,
entrywise (a NaN entry is kept, since its comparison is false). -/
def zeroSmallEntry (t x : F) : F := if F.blt (F.abs x) t then F.fin 0 else x

/-- Zero out every entry of absolute value below the threshold. -/
def matZeroSmall (t : F) (m : Mat3) : Mat3 :=
  { a11 := zeroSmallEntry t m.a11, a12 := zeroSmallEntry t m.a12, a13 := zeroSmallEntry t m.a13
    a21 := zeroSmallEntry t m.a21, a22 := zeroSmallEntry t m.a22, a23 := zeroSmallEntry t m.a23
    a31 := zeroSmallEntry t m.a31, a32 := zeroSmallEntry t m.a32, a33 := zeroSmallEntry t m.a33 }

/-! ## Rewriter (scripts/fix_inertials.py) -/

/-- `_rpy_to_matrix`, with `math.cos` and `math.sin` abstracted as the
function parameters `c` and `s`: the URDF rpy rotation composed as
`Rz @ Ry @ Rx` (roll about X first, then pitch about Y, then yaw
about Z). -/
def _rpy_to_matrix (c s : F → F) (rpy : F × F × F) : Mat3 :=
  let cr := c rpy.1
  let sr := s rpy.1
  let cp := c rpy.2.1
  let sp := s rpy.2.1
  let cy := c rpy.2.2
  let sy := s rpy.2.2
  let rx : Mat3 :=
    { a11 := F.fin 1, a12 := F.fin 0, a13 := F.fin 0
      a21 := F.fin 0, a22 := cr, a23 := F.neg sr
      a31 := F.fin 0, a32 := sr, a33 := cr }
  let ry : Mat3 :=
    { a11 := cp, a12 := F.fin 0, a13 := sp
      a21 := F.fin 0, a22 := F.fin 1, a23 := F.fin 0
      a31 := F.neg sp, a32 := F.fin 0, a33 := cp }
  let rz : Mat3 :=
    { a11 := cy, a12 := F.neg sy, a13 := F.fin 0
      a21 := sy, a22 := cy, a23 := F.fin 0
      a31 := F.fin 0, a32 := F.fin 0, a33 := F.fin 1 }
  matMul (matMul rz ry) rx

/-- `_primitive_inertia_diag`: the rewriter's estimator.  Rejects a
non-positive or non-finite mass, then matches the geometry exactly as
`_approximate_collision_inertia` does (truthy fields), returning only
the principal moments. -/
def _primitive_inertia_diag (geom : Geometry) (mass : F) : Option (F × F × F) :=
  if F.ble mass (F.fin 0) || !F.isfinite mass then none
  else
    match geom.type, geom.size, geom.radius, geom.length with
    | "box", some sz, _, _ =>
      let (lx, ly, lz) := sz
      some (F.mul (F.div mass (F.fin 12)) (F.add (F.mul ly ly) (F.mul lz lz)),
            F.mul (F.div mass (F.fin 12)) (F.add (F.mul lx lx) (F.mul lz lz)),
            F.mul (F.div mass (F.fin 12)) (F.add (F.mul lx lx) (F.mul ly ly)))
    | "cylinder", _, some r, some l =>
        if F.truthy r && F.truthy l then
          some (F.mul (F.div mass (F.fin 12))
                  (F.add (F.mul (F.fin 3) (F.mul r r)) (F.mul l l)),
                F.mul (F.div mass (F.fin 12))
                  (F.add (F.mul (F.fin 3) (F.mul r r)) (F.mul l l)),
                F.mul (F.mul (F.fin (1 / 2)) mass) (F.mul r r))
        else none
    | "sphere", _, some r, _ =>
        if F.truthy r then
          some (F.mul (F.mul (F.fin (2 / 5)) mass) (F.mul r r),
                F.mul (F.mul (F.fin (2 / 5)) mass) (F.mul r r),
                F.mul (F.mul (F.fin (2 / 5)) mass) (F.mul r r))
        else none
    | _, _, _, _ => none

/-- `_rotate_inertia`: `R @ diag(moments) @ R.T`. -/
def _rotate_inertia (diag_moments : F × F × F) (r : Mat3) : Mat3 :=
  matMul (matMul r (diagM diag_moments)) (transpose r)

/-- `_sanitize_inertia_matrix` (tol = 1e-12): symmetrize by averaging
with the transpose, then zero near-zero entries. -/
def _sanitize_inertia_matrix (m : Mat3) : Mat3 :=
  matZeroSmall tol12 (matScale (F.fin (1 / 2)) (matAdd m (transpose m)))

/-- `_pick_geometry_source`: label, geometry, and origin of the chosen
estimation source, honouring the collision/visual preference with
fallback. -/
def _pick_geometry_source (prefer_collision : Bool) (link : Link) :
    String × Option Geometry × (F × F × F) × (F × F × F) :=
  if prefer_collision then
    match link.collisions with
    | col :: _ => ("collision", some col.geometry, col.origin.xyz, col.origin.rpy)
    | [] =>
      match link.visuals with
      | vis :: _ => ("visual", some vis.geometry, vis.origin.xyz, vis.origin.rpy)
      | [] => ("none", none, (F.fin 0, F.fin 0, F.fin 0), (F.fin 0, F.fin 0, F.fin 0))
  else
    match link.visuals with
    | vis :: _ => ("visual", some vis.geometry, vis.origin.xyz, vis.origin.rpy)
    | [] =>
      match link.collisions with
      | col :: _ => ("collision", some col.geometry, col.origin.xyz, col.origin.rpy)
      | [] => ("none", none, (F.fin 0, F.fin 0, F.fin 0), (F.fin 0, F.fin 0, F.fin 0))

/-- `_collect_problem_links`: links with at least one failing check
surviving the severity / triangle filters, in link order, paired with
the filtered failing checks (the source's two emptiness short-circuits
are kept). -/
def _collect_problem_links (eig : Mat3 → F × F × F) (links : List Link)
    (include_warnings include_triangle : Bool) :
    List (String × Link × List InertiaCheck) :=
  let results := summarize_model_inertia eig links
  links.filterMap (fun link =>
    let checks := (results.reverse.find? (fun p => p.1 == link.name)).elim [] (fun p => p.2)
    let failing := checks.filter (fun c => !c.passed)
    if failing.isEmpty then none
    else
      let failing1 := if !include_warnings then failing.filter (fun c => c.severity == "error")
        else failing
      let failing2 :=
        if !include_triangle then failing1.filter (fun c => !(c.check == "triangle_inequality"))
        else failing1
      if failing2.isEmpty then none else some (link.name, link, failing2))

/-- What the rewriter reads back from the XML document for one link
element: the parsed `<inertial><mass value>` if present and parsable
(`_get_mass_from_link_element`). -/
structure DocLink where
  name : String
  massValue : Option F
deriving DecidableEq, Repr

/-- `_find_link_element`: first link element with the given name. -/
def _find_link_element (doc : List DocLink) (name : String) : Option DocLink :=
  doc.find? (fun d => d.name == name)

/-- The persisted state of one link's inertial element: mass, origin
and the six serialized tensor entries. -/
structure XmlInertial where
  mass : F
  originXyz : F × F × F
  originRpy : F × F × F
  inertia : F × F × F × F × F × F
deriving DecidableEq, Repr

/-- The six independent entries `(ixx, ixy, ixz, iyy, iyz, izz)` that
`_set_inertia` serializes from a tensor. -/
def entries6 (m : Mat3) : F × F × F × F × F × F :=
  (m.a11, m.a12, m.a13, m.a22, m.a23, m.a33)

/-- Outcome of the rewriter's per-link loop body. -/
inductive LinkFix where
  | skipped (reason : String)
  | fixed (originXyz originRpy : F × F × F) (inertia : F × F × F × F × F × F)
deriving DecidableEq, Repr

/-- The body of the `fix_inertias` loop for one problem link whose XML
element was found: reject a missing / non-positive / non-finite
authoritative mass, pick the geometry source, estimate the principal
moments, rotate them into the link frame, sanitize, and emit the new
origin (geometry position, zero rotation) and tensor entries. -/
def fixLinkBody (c s : F → F) (prefer_collision : Bool) (link : Link)
    (docMass : Option F) : LinkFix :=
  match docMass with
  | none => .skipped "missing or non-positive mass"
  | some mass =>
    if F.ble mass (F.fin 0) || !F.isfinite mass then
      .skipped "missing or non-positive mass"
    else
      let pick := _pick_geometry_source prefer_collision link
      match pick.2.1 with
      | none => .skipped "no usable geometry (box/cylinder/sphere)"
      | some geom =>
        match _primitive_inertia_diag geom mass with
        | none => .skipped ("unsupported geometry type for " ++ pick.1 ++ ": " ++ geom.type)
        | some diag =>
          let r := _rpy_to_matrix c s pick.2.2.2
          let i := _sanitize_inertia_matrix (_rotate_inertia diag r)
          .fixed pick.2.2.1 (F.fin 0, F.fin 0, F.fin 0) (entries6 i)

/-- `_set_origin` and `_set_inertia` applied to a link's persisted
inertial element: a fix overwrites origin and tensor and leaves the
mass element alone; a skip changes nothing. -/
def applyFix (old : XmlInertial) : LinkFix → XmlInertial
  | .skipped _ => old
  | .fixed xyz rpy entries =>
      { mass := old.mass, originXyz := xyz, originRpy := rpy, inertia := entries }

/-- One iteration of the `fix_inertias` loop: locate the XML element
(first match by name), then run the loop body. -/
def processProblemLink (c s : F → F) (prefer_collision : Bool) (doc : List DocLink)
    (name : String) (link : Link) : Sum (String × String) String :=
  match _find_link_element doc name with
  | none => .inl (name, "link element not found")
  | some del =>
    match fixLinkBody c s prefer_collision link del.massValue with
    | .skipped reason => .inl (name, reason)
    | .fixed _ _ _ => .inr name

/-- The names the `fix_inertias` loop fixes, in problem order. -/
def fixedNames (c s : F → F) (eig : Mat3 → F × F × F) (prefer_collision : Bool)
    (model : List Link) (doc : List DocLink) (include_warnings include_triangle : Bool) :
    List String :=
  (_collect_problem_links eig model include_warnings include_triangle).filterMap
    (fun p => match processProblemLink c s prefer_collision doc p.1 p.2.1 with
      | .inr n => some n
      | .inl _ => none)

/-- The (name, reason) pairs the `fix_inertias` loop skips, in problem
order. -/
def skippedPairs (c s : F → F) (eig : Mat3 → F × F × F) (prefer_collision : Bool)
    (model : List Link) (doc : List DocLink) (include_warnings include_triangle : Bool) :
    List (String × String) :=
  (_collect_problem_links eig model include_warnings include_triangle).filterMap
    (fun p => match processProblemLink c s prefer_collision doc p.1 p.2.1 with
      | .inr _ => none
      | .inl pr => some pr)

/-- The `", ".join(f"k (v)")` rendering of the skip reasons, with the
source's `or "none"` fallback. -/
def reasonsText (l : List (String × String)) : String :=
  if l.isEmpty then "none"
  else String.intercalate ", " (l.map (fun p => p.1 ++ " (" ++ p.2 ++ ")"))

/-- Result of running `fix_inertias`: either a `SystemExit` before any
file is written, or a written output together with the updated and
skipped link names (`tree.write` runs only on this branch). -/
inductive FixResult where
  | halted (message : String)
  | written (fixedLinks : List String) (skipped : List (String × String))
deriving DecidableEq, Repr

/-- `fix_inertias`: hard-stop when no link qualifies, process every
problem link, hard-stop with the collected reasons when none was
updated, and only then write the output document. -/
def fix_inertias (c s : F → F) (eig : Mat3 → F × F × F) (model : List Link)
    (doc : List DocLink) (include_warnings include_triangle prefer_collision : Bool) :
    FixResult :=
  let problems := _collect_problem_links eig model include_warnings include_triangle
  if problems.isEmpty then
    .halted "No links with failing checks at requested severities."
  else
    let fixed := fixedNames c s eig prefer_collision model doc include_warnings include_triangle
    let skipped :=
      skippedPairs c s eig prefer_collision model doc include_warnings include_triangle
    if fixed.isEmpty then .halted ("No links were updated. Reasons: " ++ reasonsText skipped)
    else .written fixed skipped

/-! ## Specification-side definitions

The following definitions follow the wording of the specification (the
claim list), to be compared with the embedded source functions above. -/

/-- Spec wording: a collision geometry is usable for the cross-check
when it is a box, cylinder or sphere whose required fields are present
and truthy (the float fields nonzero). -/
def usableGeom (g : Geometry) : Bool :=
  match g.type, g.size, g.radius, g.length with
  | "box", some _, _, _ => true
  | "cylinder", _, some r, some l => F.truthy r && F.truthy l
  | "sphere", _, some r, _ => F.truthy r
  | _, _, _, _ => false

/-- Spec wording: the closed-form estimate for a usable primitive
geometry, via the estimator formulas. -/
def estimateFor (g : Geometry) (mass : F) : Option ((F × F × F) × F) :=
  match g.type, g.size, g.radius, g.length with
  | "box", some sz, _, _ => some (_box_inertia sz mass)
  | "cylinder", _, some r, some l =>
      if F.truthy r && F.truthy l then some (_cylinder_inertia r l mass) else none
  | "sphere", _, some r, _ => if F.truthy r then some (_sphere_inertia r mass) else none
  | _, _, _, _ => none

/-- Spec wording: the ratio list of the geometry cross-check — the
first usable collision's estimate, both triples sorted ascending,
paired positionally, pairs surviving the 1e-9 screen. -/
def gcRatioOf (link : Link) (mass : F) (eigvals : F × F × F) : List F :=
  match (link.collisions.find? (fun c => usableGeom c.geometry)).bind
      (fun c => estimateFor c.geometry mass) with
  | none => []
  | some (expected, _) => _gc_ratio_list (sort3 eigvals) (sort3 expected)

/-- Spec wording (claim C7): the basic rotation about X by an angle
with the given cosine and sine. -/
def rotXMat (cr sr : F) : Mat3 :=
  { a11 := F.fin 1, a12 := F.fin 0, a13 := F.fin 0
    a21 := F.fin 0, a22 := cr, a23 := F.neg sr
    a31 := F.fin 0, a32 := sr, a33 := cr }

/-- Spec wording (claim C7): the basic rotation about Y. -/
def rotYMat (cp sp : F) : Mat3 :=
  { a11 := cp, a12 := F.fin 0, a13 := sp
    a21 := F.fin 0, a22 := F.fin 1, a23 := F.fin 0
    a31 := F.neg sp, a32 := F.fin 0, a33 := cp }

/-- Spec wording (claim C7): the basic rotation about Z. -/
def rotZMat (cy sy : F) : Mat3 :=
  { a11 := cy, a12 := F.neg sy, a13 := F.fin 0
    a21 := sy, a22 := cy, a23 := F.fin 0
    a31 := F.fin 0, a32 := F.fin 0, a33 := F.fin 1 }

/-- Spec wording (claim C7): the roll-pitch-yaw rotation
`Rz(yaw) * Ry(pitch) * Rx(roll)`. -/
def rpyRotationSpec (c s : F → F) (rpy : F × F × F) : Mat3 :=
  matMul (matMul (rotZMat (c rpy.2.2) (s rpy.2.2)) (rotYMat (c rpy.2.1) (s rpy.2.1)))
    (rotXMat (c rpy.1) (s rpy.1))

/-! ## Concrete fixtures used to instantiate the theorems -/

/-- A stand-in total eigensolver returning the matrix diagonal, used
only to instantiate universally quantified statements at concrete
inputs (the engine's theorems hold for every eigensolver). -/
def eigDiag : Mat3 → F × F × F := fun m => (m.a11, m.a22, m.a33)

/-- The identity origin. -/
def originZero : Origin :=
  { xyz := (F.fin 0, F.fin 0, F.fin 0), rpy := (F.fin 0, F.fin 0, F.fin 0) }

/-- A unit-box collision entry. -/
def boxUnit : Collision :=
  { origin := originZero, geometry := { type := "box", size := some (F.fin 1, F.fin 1, F.fin 1) } }

/-- A link with a NaN mass, identity tensor and a unit-box collision. -/
def linkNaNMass : Link :=
  { name := "nan_mass"
    inertial := some
      { mass := F.nan, com := (F.fin 0, F.fin 0, F.fin 0)
        inertia := (F.fin 1, F.fin 0, F.fin 0, F.fin 1, F.fin 0, F.fin 1) }
    collisions := [boxUnit] }

/-- A link with an infinite mass and identity tensor. -/
def linkInfMass : Link :=
  { name := "inf_mass"
    inertial := some
      { mass := F.inf, com := (F.fin 0, F.fin 0, F.fin 0)
        inertia := (F.fin 1, F.fin 0, F.fin 0, F.fin 1, F.fin 0, F.fin 1) } }

/-- A link with no inertial record at all. -/
def linkBare : Link := { name := "bare" }

/-- The cosine evaluator at zero angles (for concrete rewriter runs). -/
def cosZero : F → F := fun _ => F.fin 1

/-- The sine evaluator at zero angles. -/
def sinZero : F → F := fun _ => F.fin 0

/-- A link with a (2,1,1) box collision, for the rewriter scenario. -/
def linkBox211 : Link :=
  { name := "box211"
    inertial := some
      { mass := F.fin 5, com := (F.fin 0, F.fin 0, F.fin 0)
        inertia := (F.fin (-1), F.fin 0, F.fin 0, F.fin 1, F.fin 0, F.fin 1) }
    collisions :=
      [{ origin := originZero
         geometry := { type := "box", size := some (F.fin 2, F.fin 1, F.fin 1) } }] }

/-- The collision scan of the source equals "estimate of the first
usable collision entry". -/
theorem approx_eq_find (cols : List Collision) (mass : F) :
    _approximate_collision_inertia cols mass =
      (cols.find? (fun c => usableGeom c.geometry)).bind
        (fun c => estimateFor c.geometry mass) := by
  induction cols with
  | nil => rfl
  | cons c rest ih =>
    rcases c with ⟨o, g⟩
    rcases g with ⟨ty, sz, rad, len, fn⟩
    simp only [List.find?]
    by_cases hb : ty = "box"
    · subst hb
      rcases sz with _ | sz
      · simpa [_approximate_collision_inertia, usableGeom, estimateFor] using ih
      · simp [_approximate_collision_inertia, usableGeom, estimateFor]
    · by_cases hc : ty = "cylinder"
      · subst hc
        rcases rad with _ | r
        · simpa [_approximate_collision_inertia, usableGeom, estimateFor] using ih
        · rcases len with _ | l
          · simpa [_approximate_collision_inertia, usableGeom, estimateFor] using ih
          · by_cases ht : (F.truthy r && F.truthy l) = true
            · simp only [Bool.and_eq_true] at ht
              simp [_approximate_collision_inertia, usableGeom, estimateFor, ht]
            · simpa [_approximate_collision_inertia, usableGeom, estimateFor, ht] using ih
      · by_cases hs : ty = "sphere"
        · subst hs
          rcases rad with _ | r
          · simpa [_approximate_collision_inertia, usableGeom, estimateFor] using ih
          · by_cases ht : F.truthy r = true
            · simp [_approximate_collision_inertia, usableGeom, estimateFor, ht]
            · simpa [_approximate_collision_inertia, usableGeom, estimateFor, ht] using ih
        · simpa [_approximate_collision_inertia, usableGeom, estimateFor, hb, hc, hs] using ih

/-- A usable geometry always yields an estimate. -/
theorem estimateFor_isSome (g : Geometry) (mass : F) (h : usableGeom g = true) :
    (estimateFor g mass).isSome = true := by
  rcases g with ⟨ty, sz, rad, len, fn⟩
  by_cases hb : ty = "box"
  · subst hb
    rcases sz with _ | sz
    · simp [usableGeom] at h
    · rfl
  · by_cases hc : ty = "cylinder"
    · subst hc
      rcases rad with _ | r
      · simp [usableGeom] at h
      · rcases len with _ | l
        · simp [usableGeom] at h
        · simp only [usableGeom] at h
          simp [estimateFor, h]
    · by_cases hs : ty = "sphere"
      · subst hs
        rcases rad with _ | r
        · simp [usableGeom] at h
        · simp only [usableGeom] at h
          simp [estimateFor, h]
      · exact absurd h (by simp [usableGeom, hb, hc, hs])

/-- Shape of an emitted geometry-consistency check: its name, and its
severity as a function of its outcome. -/
theorem gc_shape (link : Link) (mass : F) (eigvals : F × F × F) (ck : InertiaCheck)
    (h : _check_geometry_consistency link mass eigvals = some ck) :
    ck.check = "geometry_consistency" ∧
      ck.severity = (if ck.passed then "info" else "warning") := by
  by_cases hm : F.ble mass (F.fin 0) = true
  · simp [_check_geometry_consistency, hm] at h
  · rcases heq : _approximate_collision_inertia link.collisions mass with _ | ⟨expected, density⟩
    · simp [_check_geometry_consistency, hm, heq] at h
    · rcases hrl : _gc_ratio_list (sort3 eigvals) (sort3 expected) with _ | ⟨r, rs⟩
      · simp [_check_geometry_consistency, hm, heq, hrl] at h
      · simp [_check_geometry_consistency, hm, heq, hrl] at h
        subst h
        constructor
        · rfl
        · simp [Bool.and_eq_true]

/-- The emitted geometry-consistency check's verdict: passed equals the
ratio-band test on the surviving ratios. -/
theorem gc_passed (link : Link) (mass : F) (eigvals : F × F × F) (ck : InertiaCheck)
    (h : _check_geometry_consistency link mass eigvals = some ck) :
    ∃ r rs, gcRatioOf link mass eigvals = r :: rs ∧
      ck.passed = (F.ble (F.fin (1 / 5)) (pyMinList r rs) &&
        F.ble (pyMaxList r rs) (F.fin 5)) := by
  by_cases hm : F.ble mass (F.fin 0) = true
  · simp [_check_geometry_consistency, hm] at h
  · rcases heq : _approximate_collision_inertia link.collisions mass with _ | ⟨expected, density⟩
    · simp [_check_geometry_consistency, hm, heq] at h
    · rcases hrl : _gc_ratio_list (sort3 eigvals) (sort3 expected) with _ | ⟨r, rs⟩
      · simp [_check_geometry_consistency, hm, heq, hrl] at h
      · refine ⟨r, rs, ?_, ?_⟩
        · unfold gcRatioOf
          rw [← approx_eq_find, heq]
          exact hrl
        · simp [_check_geometry_consistency, hm, heq, hrl] at h
          subst h
          simp [one_div]

/-- The geometry-consistency check is omitted exactly when the float
test `mass <= 0.0` holds, no collision is usable, or no ratio survives
the 1e-9 screen. -/
theorem gc_none_iff (link : Link) (mass : F) (eigvals : F × F × F) :
    _check_geometry_consistency link mass eigvals = none ↔
      (F.ble mass (F.fin 0) = true ∨
        (link.collisions.find? (fun c => usableGeom c.geometry)) = none ∨
        gcRatioOf link mass eigvals = []) := by
  by_cases hm : F.ble mass (F.fin 0) = true
  · simp [_check_geometry_consistency, hm]
  · rcases heq : _approximate_collision_inertia link.collisions mass with _ | ⟨expected, density⟩
    · have hfind : (link.collisions.find? fun c => usableGeom c.geometry) = none := by
        rcases hf : link.collisions.find? (fun c => usableGeom c.geometry) with _ | c
        · exact hf
        · have hp : usableGeom c.geometry = true := by
            have hq := List.find?_some hf
            simpa using hq
          have hsome := estimateFor_isSome c.geometry mass hp
          rw [approx_eq_find, hf] at heq
          have heq2 : estimateFor c.geometry mass = none := by simpa using heq
          rw [heq2] at hsome
          simp at hsome
      have hgc : _check_geometry_consistency link mass eigvals = none := by
        simp [_check_geometry_consistency, hm, heq]
      rw [hgc, hfind]
      simp
    · have hratio : gcRatioOf link mass eigvals =
          _gc_ratio_list (sort3 eigvals) (sort3 expected) := by
        unfold gcRatioOf
        rw [← approx_eq_find, heq]
      rcases hrl : _gc_ratio_list (sort3 eigvals) (sort3 expected) with _ | ⟨r, rs⟩
      · have hgc : _check_geometry_consistency link mass eigvals = none := by
          simp [_check_geometry_consistency, hm, heq, hrl]
        rw [hgc, hratio, hrl]
        simp
      · have hgc : ¬_check_geometry_consistency link mass eigvals = none := by
          simp [_check_geometry_consistency, hm, heq, hrl]
        have hfind : ¬(link.collisions.find? fun c => usableGeom c.geometry) = none := by
          rcases hf : link.collisions.find? (fun c => usableGeom c.geometry) with _ | c
          · rw [approx_eq_find, hf] at heq
            simp at heq
          · rw [hf]
            simp
        constructor
        · intro hx
          exact absurd hx hgc
        · intro hx
          rcases hx with h1 | h2 | h3
          · exact absurd h1 hm
          · exact absurd h2 hfind
          · rw [hratio, hrl] at h3
            exact List.noConfusion h3

/-- Within `evaluate_link_inertia`, the geometry-consistency check is
exactly the optional trailing check: filtering the battery's output by
that name yields `toList` of `_check_geometry_consistency`. -/
theorem evaluate_filter_gc (eig : Mat3 → F × F × F) (link : Link) (i : Inertial)
    (h : link.inertial = some i) :
    (evaluate_link_inertia eig link).filter (fun c => c.check == "geometry_consistency") =
      (_check_geometry_consistency link i.mass (eig (_build_inertia_matrix i.inertia))).toList := by
  rcases link with ⟨nm, inert, vis, cols⟩
  have h2 : inert = some i := h
  subst h2
  simp only [evaluate_link_inertia, List.filter_append, List.filter_cons, List.filter_nil]
  by_cases hf : F.isfinite i.mass = true
  · by_cases hb : F.ble i.mass (F.fin 0) = true
    · by_cases hz : (F.beq i.mass (F.fin 0) && matAnyAbsGt (_build_inertia_matrix i.inertia) tol12) = true
      · simp only [hf, hb, hz]
        rcases hopt : _check_geometry_consistency ⟨nm, some i, vis, cols⟩ i.mass
            (eig (_build_inertia_matrix i.inertia)) with _ | ck
        · simp
        · have hck := (gc_shape _ _ _ _ hopt).1
          simp [hck]
      · simp only [hf, hb, hz]
        rcases hopt : _check_geometry_consistency ⟨nm, some i, vis, cols⟩ i.mass
            (eig (_build_inertia_matrix i.inertia)) with _ | ck
        · simp
        · have hck := (gc_shape _ _ _ _ hopt).1
          simp [hck]
    · by_cases hz : (F.beq i.mass (F.fin 0) && matAnyAbsGt (_build_inertia_matrix i.inertia) tol12) = true
      · simp only [hf, hb, hz]
        rcases hopt : _check_geometry_consistency ⟨nm, some i, vis, cols⟩ i.mass
            (eig (_build_inertia_matrix i.inertia)) with _ | ck
        · simp
        · have hck := (gc_shape _ _ _ _ hopt).1
          simp [hck]
      · simp only [hf, hb, hz]
        rcases hopt : _check_geometry_consistency ⟨nm, some i, vis, cols⟩ i.mass
            (eig (_build_inertia_matrix i.inertia)) with _ | ck
        · simp
        · have hck := (gc_shape _ _ _ _ hopt).1
          simp [hck]
  · by_cases hz : (F.beq i.mass (F.fin 0) && matAnyAbsGt (_build_inertia_matrix i.inertia) tol12) = true
    · simp only [hf, hz]
      rcases hopt : _check_geometry_consistency ⟨nm, some i, vis, cols⟩ i.mass
          (eig (_build_inertia_matrix i.inertia)) with _ | ck
      · simp
      · have hck := (gc_shape _ _ _ _ hopt).1
        simp [hck]
    · simp only [hf, hz]
      rcases hopt : _check_geometry_consistency ⟨nm, some i, vis, cols⟩ i.mass
          (eig (_build_inertia_matrix i.inertia)) with _ | ck
      · simp
      · have hck := (gc_shape _ _ _ _ hopt).1
        simp [hck]

/-! ## Claim theorems -/

/-- C1 (counterexample): for a link whose inertial mass is +infinity,
the battery reports a failing `mass_finite` check but no
`mass_positive` check at all — the claim's "both checks appear" fails
on the source's if/elif. -/
theorem c1_nonfinite_mass_counterexample :
    ((evaluate_link_inertia eigDiag linkInfMass).any
        (fun c => c.check == "mass_finite" && !c.passed && c.severity == "error")) = true ∧
      ((evaluate_link_inertia eigDiag linkInfMass).any
        (fun c => c.check == "mass_positive")) = false := by
  norm_num [evaluate_link_inertia, linkInfMass, eigDiag, _build_inertia_matrix,
    _check_geometry_consistency, _approximate_collision_inertia, _check_triangle_inequality,
    _check_eigenvalue_ratio, sort3, F.npLe, F.isfinite, F.beq, F.ble, F.blt, F.abs, F.add,
    F.mul, F.div, F.neg, matAnyAbsGt, tol9, tol12, pyMax2, pyMinList, pyMaxList]
  decide

/-- C1 (amended): for every link whose inertial mass is non-finite,
`evaluate` reports a failing `mass_finite` check of severity error and
reports no `mass_positive` check whatsoever — the source's mass
branches are mutually exclusive. -/
theorem c1_nonfinite_mass_amended (eig : Mat3 → F × F × F) (link : Link) (i : Inertial)
    (h : link.inertial = some i) (hfin : F.isfinite i.mass = false) :
    ((evaluate_link_inertia eig link).any
        (fun c => c.check == "mass_finite" && !c.passed && c.severity == "error")) = true ∧
      ((evaluate_link_inertia eig link).all (fun c => !(c.check == "mass_positive"))) = true := by
  rcases link with ⟨nm, inert, vis, cols⟩
  have h2 : inert = some i := h
  subst h2
  constructor
  · simp [evaluate_link_inertia, hfin]
  · by_cases hz : (F.beq i.mass (F.fin 0) &&
        matAnyAbsGt (_build_inertia_matrix i.inertia) tol12) = true
    · rcases hopt : _check_geometry_consistency ⟨nm, some i, vis, cols⟩ i.mass
          (eig (_build_inertia_matrix i.inertia)) with _ | ck
      · simp [evaluate_link_inertia, hfin, hz, hopt]
      · have hck := (gc_shape _ _ _ _ hopt).1
        simp [evaluate_link_inertia, hfin, hz, hopt, hck]
    · rcases hopt : _check_geometry_consistency ⟨nm, some i, vis, cols⟩ i.mass
          (eig (_build_inertia_matrix i.inertia)) with _ | ck
      · simp [evaluate_link_inertia, hfin, hz, hopt]
      · have hck := (gc_shape _ _ _ _ hopt).1
        simp [evaluate_link_inertia, hfin, hz, hopt, hck]

/-- C1 (witness): the amended statement at the concrete infinite-mass
link. -/
theorem c1_nonfinite_mass_amended_witness :
    ((evaluate_link_inertia eigDiag linkInfMass).any
        (fun c => c.check == "mass_finite" && !c.passed && c.severity == "error")) = true ∧
      ((evaluate_link_inertia eigDiag linkInfMass).all
        (fun c => !(c.check == "mass_positive"))) = true :=
  c1_nonfinite_mass_amended eigDiag linkInfMass
    { mass := F.inf, com := (F.fin 0, F.fin 0, F.fin 0)
      inertia := (F.fin 1, F.fin 0, F.fin 0, F.fin 1, F.fin 0, F.fin 1) } rfl rfl

/-- C2: a link without an inertial yields exactly the one failing
`inertial_present` check of severity warning; and this is the only
short-circuit — for every link with an inertial the battery always
reaches its last three unconditional checks. -/
theorem c2_missing_inertial_short_circuit :
    (∀ (eig : Mat3 → F × F × F) (link : Link), link.inertial = none →
      evaluate_link_inertia eig link =
        [{ check := "inertial_present", passed := false, severity := "warning"
           message := "Link has no <inertial> definition." }]) ∧
    (∀ (eig : Mat3 → F × F × F) (link : Link) (i : Inertial), link.inertial = some i →
      ((evaluate_link_inertia eig link).any (fun c => c.check == "positive_definite")) = true ∧
      ((evaluate_link_inertia eig link).any (fun c => c.check == "triangle_inequality")) = true ∧
      ((evaluate_link_inertia eig link).any (fun c => c.check == "eigenvalue_ratio")) = true) := by
  constructor
  · intro eig link h
    rcases link with ⟨nm, inert, vis, cols⟩
    have h2 : inert = none := h
    subst h2
    rfl
  · intro eig link i h
    rcases link with ⟨nm, inert, vis, cols⟩
    have h2 : inert = some i := h
    subst h2
    refine ⟨?_, ?_, ?_⟩ <;> simp [evaluate_link_inertia, List.any_append]

/-- C2 (witness): the missing-inertial case at the concrete bare link,
via the theorem. -/
theorem c2_missing_inertial_short_circuit_witness :
    evaluate_link_inertia eigDiag linkBare =
      [{ check := "inertial_present", passed := false, severity := "warning"
         message := "Link has no <inertial> definition." }] :=
  c2_missing_inertial_short_circuit.1 eigDiag linkBare rfl

/-- C3 (counterexample): the claim says the geometry-consistency check
is omitted when there is no positive mass; but for a NaN mass (which is
not positive — `0 < NaN` is false as a float comparison) with a usable
unit-box collision, the check is emitted (failing). -/
theorem c3_nan_mass_counterexample :
    ((evaluate_link_inertia eigDiag linkNaNMass).filter
        (fun c => c.check == "geometry_consistency")) =
      [{ check := "geometry_consistency", passed := false, severity := "warning"
         message := "Inertia deviates from collision geometry estimate."
         details :=
           [("expected_eigenvalues", DVal.nums [F.nan, F.nan, F.nan]),
            ("actual_eigenvalues", DVal.nums [F.fin 1, F.fin 1, F.fin 1]),
            ("ratio_range", DVal.nums [F.nan, F.nan]),
            ("density_estimate", DVal.num F.nan)] }] ∧
      F.blt (F.fin 0) F.nan = false := by
  constructor
  · rw [evaluate_filter_gc eigDiag linkNaNMass
      { mass := F.nan, com := (F.fin 0, F.fin 0, F.fin 0)
        inertia := (F.fin 1, F.fin 0, F.fin 0, F.fin 1, F.fin 0, F.fin 1) } rfl]
    norm_num [_check_geometry_consistency, linkNaNMass, boxUnit, originZero, eigDiag,
      _build_inertia_matrix, _approximate_collision_inertia, _box_inertia, _gc_ratio_list,
      sort3, F.npLe, F.isfinite, F.beq, F.ble, F.blt, F.abs, F.add, F.mul, F.div, F.neg,
      tol9, tol12, pyMax2, pyMinList, pyMaxList,
      List.filterMap_cons, List.filterMap_nil, List.foldl_cons, List.foldl_nil]
  · rfl

/-- C3 (amended): the geometry-consistency check uses the first
collision entry with a usable primitive geometry, sorts actual and
expected triples ascending, pairs them positionally, keeps ratios of
pairs where neither value is below 1e-9 under float comparison, and
passes iff min ratio >= 0.2 and max ratio <= 5.0 with severity warning
when violated and info otherwise; it is omitted exactly when the float
test mass <= 0 holds (a NaN mass is not omitted), no collision is
usable, or no ratio survives; and within `evaluate` it is exactly the
optional trailing check. -/
theorem c3_geometry_consistency_amended :
    (∀ (link : Link) (mass : F) (eigvals : F × F × F),
      (_check_geometry_consistency link mass eigvals = none ↔
        (F.ble mass (F.fin 0) = true ∨
          (link.collisions.find? fun c => usableGeom c.geometry) = none ∨
          gcRatioOf link mass eigvals = [])) ∧
      (∀ ck, _check_geometry_consistency link mass eigvals = some ck →
        ck.check = "geometry_consistency" ∧
        (∃ r rs, gcRatioOf link mass eigvals = r :: rs ∧
          ck.passed = (F.ble (F.fin (1 / 5)) (pyMinList r rs) &&
            F.ble (pyMaxList r rs) (F.fin 5))) ∧
        ck.severity = (if ck.passed then "info" else "warning"))) ∧
    (∀ (eig : Mat3 → F × F × F) (link : Link) (i : Inertial), link.inertial = some i →
      (evaluate_link_inertia eig link).filter (fun c => c.check == "geometry_consistency") =
        (_check_geometry_consistency link i.mass (eig (_build_inertia_matrix i.inertia))).toList) := by
  constructor
  · intro link mass eigvals
    refine ⟨gc_none_iff link mass eigvals, ?_⟩
    intro ck hck
    refine ⟨(gc_shape _ _ _ _ hck).1, gc_passed _ _ _ _ hck, (gc_shape _ _ _ _ hck).2⟩
  · intro eig link i h
    exact evaluate_filter_gc eig link i h

/-- C3 (witness): the amended characterization applied at a concrete
link — the unit-box link with NaN mass: the check is emitted and its
omission conditions all fail. -/
theorem c3_geometry_consistency_amended_witness :
    (evaluate_link_inertia eigDiag linkNaNMass).filter
        (fun c => c.check == "geometry_consistency") =
      (_check_geometry_consistency linkNaNMass F.nan
        (eigDiag (_build_inertia_matrix (F.fin 1, F.fin 0, F.fin 0, F.fin 1, F.fin 0, F.fin 1)))).toList :=
  c3_geometry_consistency_amended.2 eigDiag linkNaNMass
    { mass := F.nan, com := (F.fin 0, F.fin 0, F.fin 0)
      inertia := (F.fin 1, F.fin 0, F.fin 0, F.fin 1, F.fin 0, F.fin 1) } rfl

/-- C4: the triangle-inequality check sorts the eigenvalues ascending
a <= b <= c and passes iff no eigenvalue is below the tolerance 1e-9
and each eigenvalue is at most the tolerance-padded sum of the other
two; within `evaluate` the check named `triangle_inequality` carries
exactly this verdict; and the eigenvalue triple (1, 1, 3) fails. -/
theorem c4_triangle_inequality :
    (∀ (eig : Mat3 → F × F × F) (link : Link) (i : Inertial), link.inertial = some i →
      ((evaluate_link_inertia eig link).any (fun c => c.check == "triangle_inequality" &&
        (c.passed == _check_triangle_inequality (eig (_build_inertia_matrix i.inertia)) tol9)))
        = true) ∧
    (∀ t : F × F × F,
      (_check_triangle_inequality t tol9 = true ↔
        (F.blt (sort3 t).1 tol9 = false ∧ F.blt (sort3 t).2.1 tol9 = false ∧
          F.blt (sort3 t).2.2 tol9 = false ∧
          F.ble (sort3 t).1 (F.add (F.add (sort3 t).2.1 (sort3 t).2.2) tol9) = true ∧
          F.ble (sort3 t).2.1 (F.add (F.add (sort3 t).1 (sort3 t).2.2) tol9) = true ∧
          F.ble (sort3 t).2.2 (F.add (F.add (sort3 t).1 (sort3 t).2.1) tol9) = true))) ∧
    _check_triangle_inequality (F.fin 1, F.fin 1, F.fin 3) tol9 = false := by
  refine ⟨?_, ?_, ?_⟩
  · intro eig link i h
    rcases link with ⟨nm, inert, vis, cols⟩
    have h2 : inert = some i := h
    subst h2
    simp [evaluate_link_inertia, List.any_append]
  · intro t
    simp only [_check_triangle_inequality]
    rcases hb1 : F.blt (sort3 t).1 tol9 with _ | _ <;>
      rcases hb2 : F.blt (sort3 t).2.1 tol9 with _ | _ <;>
        rcases hb3 : F.blt (sort3 t).2.2 tol9 with _ | _ <;>
          simp [hb1, hb2, hb3, Bool.and_eq_true, and_assoc]
  · norm_num [_check_triangle_inequality, sort3, F.npLe, F.ble, F.blt, F.add, tol9]

/-- Severity discipline of a check whose severity is written
`if !b then s else "info"` with `b` its outcome. -/
theorem sev_branch (b : Bool) (s : String) (hs : s = "warning" ∨ s = "error")
    (ck : InertiaCheck) (hp : ck.passed = b)
    (hsev : ck.severity = (if !b then s else "info")) :
    (ck.passed = true → ck.severity = "info") ∧
      (ck.passed = false → ck.severity = "warning" ∨ ck.severity = "error") ∧
      (ck.severity = "info" ∨ ck.severity = "warning" ∨ ck.severity = "error") := by
  cases b
  · simp only [Bool.not_false, if_true] at hsev
    rcases hs with h | h <;> simp [hp, hsev, h]
  · simp only [Bool.not_true] at hsev
    simp at hsev
    simp [hp, hsev]

/-- Severity discipline of a check whose severity is written
`if b then "info" else s` with `b` its outcome. -/
theorem sev_branch_pos (s : String) (hs : s = "warning" ∨ s = "error")
    (ck : InertiaCheck)
    (hsev : ck.severity = (if ck.passed then "info" else s)) :
    (ck.passed = true → ck.severity = "info") ∧
      (ck.passed = false → ck.severity = "warning" ∨ ck.severity = "error") ∧
      (ck.severity = "info" ∨ ck.severity = "warning" ∨ ck.severity = "error") := by
  rcases hp : ck.passed with _ | _
  · rw [hp] at hsev
    simp only [Bool.false_eq_true, if_false] at hsev
    rcases hs with h | h <;> simp [hsev, h]
  · rw [hp] at hsev
    simp only [if_true] at hsev
    simp [hsev]

/-- C9: every check the battery returns has severity info when it
passed and warning or error when it failed; the severity is always one
of info, warning, error. -/
theorem c9_severity_invariant (eig : Mat3 → F × F × F) (link : Link) (ck : InertiaCheck)
    (h : ck ∈ evaluate_link_inertia eig link) :
    (ck.passed = true → ck.severity = "info") ∧
      (ck.passed = false → ck.severity = "warning" ∨ ck.severity = "error") ∧
      (ck.severity = "info" ∨ ck.severity = "warning" ∨ ck.severity = "error") := by
  rcases link with ⟨nm, inert, vis, cols⟩
  rcases inert with _ | i
  · simp only [evaluate_link_inertia, List.mem_singleton] at h
    subst h
    simp
  · simp only [evaluate_link_inertia] at h
    rcases List.mem_append.mp h with h1 | hgeom
    · rcases List.mem_append.mp h1 with h2 | hptr
      · rcases List.mem_append.mp h2 with hmass | hzero
        · simp only [List.mem_singleton] at hmass
          subst hmass
          by_cases hf : F.isfinite i.mass = true
          · by_cases hb : F.ble i.mass (F.fin 0) = true
            · simp [hf, hb]
            · simp [hf, hb]
          · simp [hf]
        · by_cases hz : (F.beq i.mass (F.fin 0) &&
              matAnyAbsGt (_build_inertia_matrix i.inertia) tol12) = true
          · simp only [hz, if_true, List.mem_singleton] at hzero
            subst hzero
            simp
          · simp [hz] at hzero
      · simp only [List.mem_cons, List.not_mem_nil, or_false] at hptr
        rcases hptr with hpd | htri | hratio
        · subst hpd
          exact sev_branch _ "error" (Or.inr rfl) _ rfl rfl
        · subst htri
          exact sev_branch _ "error" (Or.inr rfl) _ rfl rfl
        · subst hratio
          exact sev_branch _ "warning" (Or.inl rfl) _ rfl rfl
    · rcases hopt : _check_geometry_consistency ⟨nm, some i, vis, cols⟩ i.mass
          (eig (_build_inertia_matrix i.inertia)) with _ | c0
      · rw [hopt] at hgeom
        simp at hgeom
      · rw [hopt] at hgeom
        simp only [Option.toList_some, List.mem_singleton] at hgeom
        subst hgeom
        exact sev_branch_pos "warning" (Or.inl rfl) _ (gc_shape _ _ _ _ hopt).2

/-- C9 (witness): the invariant at the concrete bare link's single
check. -/
theorem c9_severity_invariant_witness :
    (({ check := "inertial_present", passed := false, severity := "warning"
        message := "Link has no <inertial> definition." } : InertiaCheck).passed = true →
      ({ check := "inertial_present", passed := false, severity := "warning"
         message := "Link has no <inertial> definition." } : InertiaCheck).severity = "info") ∧
      (({ check := "inertial_present", passed := false, severity := "warning"
          message := "Link has no <inertial> definition." } : InertiaCheck).passed = false →
        ({ check := "inertial_present", passed := false, severity := "warning"
           message := "Link has no <inertial> definition." } : InertiaCheck).severity = "warning" ∨
          ({ check := "inertial_present", passed := false, severity := "warning"
             message := "Link has no <inertial> definition." } : InertiaCheck).severity = "error") ∧
      (({ check := "inertial_present", passed := false, severity := "warning"
          message := "Link has no <inertial> definition." } : InertiaCheck).severity = "info" ∨
        ({ check := "inertial_present", passed := false, severity := "warning"
           message := "Link has no <inertial> definition." } : InertiaCheck).severity = "warning" ∨
        ({ check := "inertial_present", passed := false, severity := "warning"
           message := "Link has no <inertial> definition." } : InertiaCheck).severity = "error") :=
  c9_severity_invariant eigDiag linkBare
    { check := "inertial_present", passed := false, severity := "warning"
      message := "Link has no <inertial> definition." }
    (by simp [evaluate_link_inertia, linkBare])

/-- C5: the estimator's closed forms.  For finite mass m > 0: the box
gives Ixx = m(ly^2+lz^2)/12 (and cyclic), the cylinder (axis Z) gives
Ixx = Iyy = m(3r^2+L^2)/12 and Izz = m r^2/2, the sphere gives
(2/5) m r^2 on all axes; the implied density is mass/volume, NaN when
the volume is not positive; the rewriter's estimator agrees on the
moments; and a mesh or unknown geometry yields no estimate in either
estimator rather than an error. -/
theorem c5_estimator_closed_forms :
    (∀ m lx ly lz : ℚ, 0 < m →
      _box_inertia (F.fin lx, F.fin ly, F.fin lz) (F.fin m) =
        ((F.fin (m * (ly ^ 2 + lz ^ 2) / 12), F.fin (m * (lx ^ 2 + lz ^ 2) / 12),
          F.fin (m * (lx ^ 2 + ly ^ 2) / 12)),
         if 0 < lx * ly * lz then F.fin (m / (lx * ly * lz)) else F.nan)) ∧
    (∀ m lx ly lz : ℚ, 0 < m →
      _primitive_inertia_diag
          { type := "box", size := some (F.fin lx, F.fin ly, F.fin lz) } (F.fin m) =
        some (F.fin (m * (ly ^ 2 + lz ^ 2) / 12), F.fin (m * (lx ^ 2 + lz ^ 2) / 12),
          F.fin (m * (lx ^ 2 + ly ^ 2) / 12))) ∧
    (∀ m r l : ℚ, 0 < m →
      _cylinder_inertia (F.fin r) (F.fin l) (F.fin m) =
        ((F.fin (m * (3 * r ^ 2 + l ^ 2) / 12), F.fin (m * (3 * r ^ 2 + l ^ 2) / 12),
          F.fin (m * r ^ 2 / 2)),
         if 0 < piQ * (r * r) * l then F.fin (m / (piQ * (r * r) * l)) else F.nan)) ∧
    (∀ m r l : ℚ, 0 < m → r ≠ 0 → l ≠ 0 →
      _primitive_inertia_diag
          { type := "cylinder", radius := some (F.fin r), length := some (F.fin l) } (F.fin m) =
        some (F.fin (m * (3 * r ^ 2 + l ^ 2) / 12), F.fin (m * (3 * r ^ 2 + l ^ 2) / 12),
          F.fin (m * r ^ 2 / 2))) ∧
    (∀ m r : ℚ, 0 < m →
      _sphere_inertia (F.fin r) (F.fin m) =
        ((F.fin (2 / 5 * m * r ^ 2), F.fin (2 / 5 * m * r ^ 2), F.fin (2 / 5 * m * r ^ 2)),
         if 0 < 4 / 3 * piQ * (r * r * r) then F.fin (m / (4 / 3 * piQ * (r * r * r)))
         else F.nan)) ∧
    (∀ m r : ℚ, 0 < m → r ≠ 0 →
      _primitive_inertia_diag { type := "sphere", radius := some (F.fin r) } (F.fin m) =
        some (F.fin (2 / 5 * m * r ^ 2), F.fin (2 / 5 * m * r ^ 2), F.fin (2 / 5 * m * r ^ 2))) ∧
    (∀ (m : F) (sz : Option (F × F × F)) (rad llen : Option F) (fn : Option String),
      _primitive_inertia_diag ⟨"mesh", sz, rad, llen, fn⟩ m = none ∧
      _primitive_inertia_diag ⟨"unknown", sz, rad, llen, fn⟩ m = none ∧
      _approximate_collision_inertia [⟨originZero, ⟨"mesh", sz, rad, llen, fn⟩⟩] m = none ∧
      _approximate_collision_inertia [⟨originZero, ⟨"unknown", sz, rad, llen, fn⟩⟩] m
        = none) := by
  have h12 : ¬(12 : ℚ) = 0 := by norm_num
  have hpi : ¬piQ = 0 := by norm_num [piQ]
  refine ⟨?_, ?_, ?_, ?_, ?_, ?_, ?_⟩
  · intro m lx ly lz hm
    simp only [_box_inertia, F.mul, F.div, F.add, F.blt, decide_eq_true_eq, if_neg h12,
      Prod.mk.injEq, F.fin.injEq]
    refine ⟨⟨by ring, by ring, by ring⟩, ?_⟩
    by_cases hv : 0 < lx * ly * lz
    · rw [if_pos hv, if_pos hv, if_neg (ne_of_gt hv)]
    · rw [if_neg hv, if_neg hv]
  · intro m lx ly lz hm
    have hle : ¬m ≤ 0 := not_le.mpr hm
    simp only [_primitive_inertia_diag, F.ble, F.isfinite, decide_eq_true_eq, Bool.not_true,
      Bool.or_false, if_neg hle, F.mul, F.div, F.add, if_neg h12, Option.some.injEq,
      Prod.mk.injEq, F.fin.injEq]
    exact ⟨by ring, by ring, by ring⟩
  · intro m r l hm
    simp only [_cylinder_inertia, piF, F.mul, F.div, F.add, F.blt, decide_eq_true_eq,
      if_neg h12, Prod.mk.injEq, F.fin.injEq]
    refine ⟨⟨by ring, by ring, by ring⟩, ?_⟩
    by_cases hv : 0 < piQ * (r * r) * l
    · rw [if_pos hv, if_pos hv, if_neg (ne_of_gt hv)]
    · rw [if_neg hv, if_neg hv]
  · intro m r l hm hr hl
    have hle : ¬m ≤ 0 := not_le.mpr hm
    simp only [_primitive_inertia_diag, F.ble, F.isfinite, F.truthy, Bool.and_eq_true,
      decide_eq_true_eq, Bool.not_true, Bool.or_false, if_neg hle]
    rw [if_pos ⟨hr, hl⟩]
    simp only [F.mul, F.div, F.add, if_neg h12, Option.some.injEq, Prod.mk.injEq,
      F.fin.injEq]
    exact ⟨by ring, by ring, by ring⟩
  · intro m r hm
    simp only [_sphere_inertia, piF, F.mul, F.div, F.blt, decide_eq_true_eq,
      Prod.mk.injEq, F.fin.injEq]
    refine ⟨⟨by ring, by ring, by ring⟩, ?_⟩
    by_cases hv : 0 < 4 / 3 * piQ * (r * r * r)
    · rw [if_pos hv, if_pos hv, if_neg (ne_of_gt hv)]
    · rw [if_neg hv, if_neg hv]
  · intro m r hm hr
    have hle : ¬m ≤ 0 := not_le.mpr hm
    simp only [_primitive_inertia_diag, F.ble, F.isfinite, F.truthy, decide_eq_true_eq,
      Bool.not_true, Bool.or_false, if_neg hle]
    rw [if_pos hr]
    simp only [F.mul, F.div, Option.some.injEq, Prod.mk.injEq, F.fin.injEq]
    exact ⟨by ring, by ring, by ring⟩
  · intro m sz rad llen fn
    refine ⟨?_, ?_, ?_, ?_⟩ <;>
      (try rcases sz with _ | sz) <;>
        rcases rad with _ | rad <;>
          rcases llen with _ | llen <;>
            simp [_primitive_inertia_diag, _approximate_collision_inertia]

/-- C5 (witness): the box estimator at size (1,1,1), mass 10, via the
closed-form theorem. -/
theorem c5_estimator_closed_forms_witness :
    _box_inertia (F.fin 1, F.fin 1, F.fin 1) (F.fin 10) =
      ((F.fin (10 * ((1 : ℚ) ^ 2 + (1 : ℚ) ^ 2) / 12),
        F.fin (10 * ((1 : ℚ) ^ 2 + (1 : ℚ) ^ 2) / 12),
        F.fin (10 * ((1 : ℚ) ^ 2 + (1 : ℚ) ^ 2) / 12)),
       if (0 : ℚ) < 1 * 1 * 1 then F.fin (10 / ((1 : ℚ) * 1 * 1)) else F.nan) :=
  c5_estimator_closed_forms.1 10 1 1 1 (by norm_num)

/-- C10: a cylinder with zero radius or zero length, and a sphere with
zero radius, are rejected by both estimators (Python truthiness): the
collision scan yields no estimate (so the geometry check is omitted)
and the rewriter's estimator returns no estimate (so the link is
skipped as an unsupported geometry); whereas a (0,0,0) box is accepted:
zero moments with NaN implied density. -/
theorem c10_zero_dimension_primitives :
    (∀ (m l : F) (o : Origin),
      _approximate_collision_inertia [⟨o, ⟨"cylinder", none, some (F.fin 0), some l, none⟩⟩] m
        = none) ∧
    (∀ (m r : F) (o : Origin),
      _approximate_collision_inertia [⟨o, ⟨"cylinder", none, some r, some (F.fin 0), none⟩⟩] m
        = none) ∧
    (∀ (m : F) (o : Origin),
      _approximate_collision_inertia [⟨o, ⟨"sphere", none, some (F.fin 0), none, none⟩⟩] m
        = none) ∧
    (∀ m l : F, _primitive_inertia_diag ⟨"cylinder", none, some (F.fin 0), some l, none⟩ m
        = none) ∧
    (∀ m r : F, _primitive_inertia_diag ⟨"cylinder", none, some r, some (F.fin 0), none⟩ m
        = none) ∧
    (∀ m : F, _primitive_inertia_diag ⟨"sphere", none, some (F.fin 0), none, none⟩ m = none) ∧
    (∀ (mass : F) (eigvals : F × F × F) (nm : String) (i : Option Inertial)
        (vis : List Visual) (o : Origin) (l : F),
      _check_geometry_consistency
          ⟨nm, i, vis, [⟨o, ⟨"cylinder", none, some (F.fin 0), some l, none⟩⟩]⟩ mass eigvals
        = none) ∧
    (∀ (m : ℚ) (nm : String) (i : Option Inertial) (vis : List Visual) (o : Origin) (l : F),
      0 < m →
      fixLinkBody cosZero sinZero true
          ⟨nm, i, vis, [⟨o, ⟨"cylinder", none, some (F.fin 0), some l, none⟩⟩]⟩
          (some (F.fin m)) =
        .skipped "unsupported geometry type for collision: cylinder") ∧
    (∀ m : ℚ,
      _box_inertia (F.fin 0, F.fin 0, F.fin 0) (F.fin m) =
        ((F.fin 0, F.fin 0, F.fin 0), F.nan)) ∧
    (∀ (m : F) (o : Origin),
      _approximate_collision_inertia
          [⟨o, ⟨"box", some (F.fin 0, F.fin 0, F.fin 0), none, none, none⟩⟩] m =
        some (_box_inertia (F.fin 0, F.fin 0, F.fin 0) m)) ∧
    (∀ m : ℚ, 0 < m →
      _primitive_inertia_diag ⟨"box", some (F.fin 0, F.fin 0, F.fin 0), none, none, none⟩
          (F.fin m) =
        some (F.fin 0, F.fin 0, F.fin 0)) := by
  have h12 : ¬(12 : ℚ) = 0 := by norm_num
  have hcyl0l : ∀ (m l : F),
      _approximate_collision_inertia
        [⟨{ xyz := (F.fin 0, F.fin 0, F.fin 0), rpy := (F.fin 0, F.fin 0, F.fin 0) },
          ⟨"cylinder", none, some (F.fin 0), some l, none⟩⟩] m = none := by
    intro m l
    simp [_approximate_collision_inertia, F.truthy]
  refine ⟨?_, ?_, ?_, ?_, ?_, ?_, ?_, ?_, ?_, ?_, ?_⟩
  · intro m l o
    simp [_approximate_collision_inertia, F.truthy]
  · intro m r o
    simp [_approximate_collision_inertia, F.truthy]
  · intro m o
    simp [_approximate_collision_inertia, F.truthy]
  · intro m l
    by_cases hg : (F.ble m (F.fin 0) || !F.isfinite m) = true <;>
      simp [_primitive_inertia_diag, hg, F.truthy]
  · intro m r
    by_cases hg : (F.ble m (F.fin 0) || !F.isfinite m) = true <;>
      simp [_primitive_inertia_diag, hg, F.truthy]
  · intro m
    by_cases hg : (F.ble m (F.fin 0) || !F.isfinite m) = true <;>
      simp [_primitive_inertia_diag, hg, F.truthy]
  · intro mass eigvals nm i vis o l
    by_cases hm : F.ble mass (F.fin 0) = true
    · simp [_check_geometry_consistency, hm]
    · simp [_check_geometry_consistency, hm, _approximate_collision_inertia, F.truthy]
  · intro m nm i vis o l hm
    have hle : ¬m ≤ 0 := not_le.mpr hm
    simp [fixLinkBody, _pick_geometry_source, _primitive_inertia_diag, F.ble, F.isfinite,
      F.truthy, hle]
  · intro m
    simp only [_box_inertia, F.mul, F.add, F.div, F.blt, decide_eq_true_eq, if_neg h12,
      Prod.mk.injEq, F.fin.injEq]
    norm_num
  · intro m o
    simp [_approximate_collision_inertia]
  · intro m hm
    have hle : ¬m ≤ 0 := not_le.mpr hm
    simp only [_primitive_inertia_diag, F.ble, F.isfinite, decide_eq_true_eq, Bool.not_true,
      Bool.or_false, if_neg hle, F.mul, F.div, F.add, if_neg h12, Option.some.injEq,
      Prod.mk.injEq, F.fin.injEq]
    norm_num

/-- Float addition is commutative (NaN and infinity cases included). -/
theorem F_add_comm (a b : F) : F.add a b = F.add b a := by
  cases a <;> cases b <;> simp [F.add, Rat.add_comm]

/-- C7: for every link the rewriter fixes, the emitted tensor entries
are those of `R * diag(moments) * R^T` — with `R` the roll-pitch-yaw
rotation `Rz(yaw) * Ry(pitch) * Rx(roll)` of the chosen geometry's
origin — symmetrized (averaged with the transpose) and with entries of
absolute value below 1e-12 zeroed; the persisted origin is the chosen
geometry's position with zero rotation; and applying the fix to the
persisted inertial leaves its mass untouched. -/
theorem c7_rewriter_rotated_tensor :
    (∀ (c s : F → F) (rpy : F × F × F), _rpy_to_matrix c s rpy = rpyRotationSpec c s rpy) ∧
    (∀ m : Mat3, _sanitize_inertia_matrix m =
      matZeroSmall tol12 (matScale (F.fin (1 / 2)) (matAdd m (transpose m)))) ∧
    (∀ m : Mat3, transpose (_sanitize_inertia_matrix m) = _sanitize_inertia_matrix m) ∧
    (∀ (c s : F → F) (pc : Bool) (link : Link) (docMass : Option F)
        (xyz rpy0 : F × F × F) (i6 : F × F × F × F × F × F),
      fixLinkBody c s pc link docMass = .fixed xyz rpy0 i6 →
      ∃ mass geom diag,
        docMass = some mass ∧
        (_pick_geometry_source pc link).2.1 = some geom ∧
        _primitive_inertia_diag geom mass = some diag ∧
        xyz = (_pick_geometry_source pc link).2.2.1 ∧
        rpy0 = (F.fin 0, F.fin 0, F.fin 0) ∧
        i6 = entries6 (_sanitize_inertia_matrix (_rotate_inertia diag
          (_rpy_to_matrix c s (_pick_geometry_source pc link).2.2.2)))) ∧
    (∀ (old : XmlInertial) (xyz rpy0 : F × F × F) (i6 : F × F × F × F × F × F),
      (applyFix old (.fixed xyz rpy0 i6)).mass = old.mass ∧
      (applyFix old (.fixed xyz rpy0 i6)).originXyz = xyz ∧
      (applyFix old (.fixed xyz rpy0 i6)).originRpy = rpy0 ∧
      (applyFix old (.fixed xyz rpy0 i6)).inertia = i6) := by
  refine ⟨?_, ?_, ?_, ?_, ?_⟩
  · intro c s rpy
    rfl
  · intro m
    rfl
  · intro m
    simp [_sanitize_inertia_matrix, matZeroSmall, matScale, matAdd, transpose,
      Mat3.mk.injEq, F_add_comm]
  · intro c s pc link docMass xyz rpy0 i6 h
    rcases docMass with _ | mass
    · exact absurd h (by simp [fixLinkBody])
    · simp only [fixLinkBody] at h
      by_cases hg : (F.ble mass (F.fin 0) || !F.isfinite mass) = true
      · rw [if_pos hg] at h
        exact absurd h (by simp)
      · rw [if_neg hg] at h
        rcases hpick : (_pick_geometry_source pc link).2.1 with _ | geom
        · simp only [hpick] at h
          exact absurd h (by simp)
        · simp only [hpick] at h
          rcases hdiag : _primitive_inertia_diag geom mass with _ | diag
          · simp only [hdiag] at h
            exact absurd h (by simp)
          · simp only [hdiag] at h
            simp only [LinkFix.fixed.injEq] at h
            exact ⟨mass, geom, diag, rfl, rfl, hdiag, h.1.symm, h.2.1.symm, h.2.2.symm⟩
  · intro old xyz rpy0 i6
    exact ⟨rfl, rfl, rfl, rfl⟩

/-- C7 (witness): the rewriter scenario at the concrete (2,1,1) box
link with mass 5 and identity origin, via the theorem. -/
theorem c7_rewriter_rotated_tensor_witness :
    ∃ mass geom diag,
      (some (F.fin 5) : Option F) = some mass ∧
      (_pick_geometry_source true linkBox211).2.1 = some geom ∧
      _primitive_inertia_diag geom mass = some diag ∧
      (F.fin 0, F.fin 0, F.fin 0) = (_pick_geometry_source true linkBox211).2.2.1 ∧
      ((F.fin 0, F.fin 0, F.fin 0) : F × F × F) = (F.fin 0, F.fin 0, F.fin 0) ∧
      (F.fin (5 / 6), F.fin 0, F.fin 0, F.fin (25 / 12), F.fin 0, F.fin (25 / 12)) =
        entries6 (_sanitize_inertia_matrix (_rotate_inertia diag
          (_rpy_to_matrix cosZero sinZero (_pick_geometry_source true linkBox211).2.2.2))) :=
  c7_rewriter_rotated_tensor.2.2.2.1 cosZero sinZero true linkBox211 (some (F.fin 5))
    (F.fin 0, F.fin 0, F.fin 0) (F.fin 0, F.fin 0, F.fin 0)
    (F.fin (5 / 6), F.fin 0, F.fin 0, F.fin (25 / 12), F.fin 0, F.fin (25 / 12))
    (by
      norm_num [fixLinkBody, linkBox211, originZero, _pick_geometry_source,
        _primitive_inertia_diag, _rpy_to_matrix, _rotate_inertia, _sanitize_inertia_matrix,
        matMul, transpose, matAdd, matScale, matZeroSmall, diagM, zeroSmallEntry, entries6,
        cosZero, sinZero, F.ble, F.isfinite, F.truthy, F.mul, F.add, F.div, F.neg, F.abs,
        F.blt, tol12]
      constructor <;>
        · rw [abs_of_pos (by norm_num)]
          norm_num)

/-- C10 (witness): the rewriter's estimator accepts a (0,0,0) box at
mass 1, via the theorem. -/
theorem c10_zero_dimension_primitives_witness :
    _primitive_inertia_diag ⟨"box", some (F.fin 0, F.fin 0, F.fin 0), none, none, none⟩
        (F.fin 1) =
      some (F.fin 0, F.fin 0, F.fin 0) :=
  c10_zero_dimension_primitives.2.2.2.2.2.2.2.2.2.2 1 (by norm_num)

/-- An empty filterMap means the function returns none on every
element. -/
theorem filterMap_eq_nil_mem {α β : Type} (f : α → Option β) (l : List α)
    (h : l.filterMap f = []) : ∀ a ∈ l, f a = none := by
  induction l with
  | nil => simp
  | cons x xs ih =>
    intro a ha
    rcases hfx : f x with _ | b
    · rw [List.filterMap_cons, hfx] at h
      rcases List.mem_cons.mp ha with rfl | ha2
      · exact hfx
      · exact ih h a ha2
    · rw [List.filterMap_cons, hfx] at h
      exact absurd h (by simp)

/-- C8: the rewriter writes no output when no link qualifies or no link
is updated: the run yields the written output exactly when some link
qualifies and some link is fixed; the zero-qualifying case halts with
its message; the zero-updated case halts with the "No links were
updated" message carrying the per-link skip reasons (and at least one
skip reason exists); and a written result carries a non-empty fixed
list. -/
theorem c8_no_output_without_updates (c s : F → F) (eig : Mat3 → F × F × F)
    (model : List Link) (doc : List DocLink) (iw it pc : Bool) :
    ((∃ f sk, fix_inertias c s eig model doc iw it pc = .written f sk) ↔
      (_collect_problem_links eig model iw it ≠ [] ∧
        fixedNames c s eig pc model doc iw it ≠ [])) ∧
    (_collect_problem_links eig model iw it = [] →
      fix_inertias c s eig model doc iw it pc =
        .halted "No links with failing checks at requested severities.") ∧
    (_collect_problem_links eig model iw it ≠ [] →
      fixedNames c s eig pc model doc iw it = [] →
      fix_inertias c s eig model doc iw it pc =
        .halted ("No links were updated. Reasons: " ++
          reasonsText (skippedPairs c s eig pc model doc iw it)) ∧
        skippedPairs c s eig pc model doc iw it ≠ []) ∧
    (∀ f sk, fix_inertias c s eig model doc iw it pc = .written f sk →
      f = fixedNames c s eig pc model doc iw it ∧ f ≠ [] ∧
        sk = skippedPairs c s eig pc model doc iw it) := by
  rcases hp : _collect_problem_links eig model iw it with _ | ⟨p0, rest⟩
  · have hval : fix_inertias c s eig model doc iw it pc =
        .halted "No links with failing checks at requested severities." := by
      simp [fix_inertias, hp]
    refine ⟨?_, ?_, ?_, ?_⟩
    · constructor
      · rintro ⟨f, sk, hf⟩
        rw [hval] at hf
        exact absurd hf (by simp)
      · rintro ⟨hne, _⟩
        exact absurd rfl hne
    · intro _
      exact hval
    · intro hne
      exact absurd rfl hne
    · intro f sk hf
      rw [hval] at hf
      exact absurd hf (by simp)
  · rcases hfx : fixedNames c s eig pc model doc iw it with _ | ⟨f0, frest⟩
    · have hval : fix_inertias c s eig model doc iw it pc =
          .halted ("No links were updated. Reasons: " ++
            reasonsText (skippedPairs c s eig pc model doc iw it)) := by
        simp [fix_inertias, hp, hfx]
      have hskip : skippedPairs c s eig pc model doc iw it ≠ [] := by
        intro hsk
        have hfix0 := filterMap_eq_nil_mem _ _ (by rw [← fixedNames]; exact hfx) p0
          (by rw [hp]; exact List.mem_cons_self p0 rest)
        have hskip0 := filterMap_eq_nil_mem _ _ (by rw [← skippedPairs]; exact hsk) p0
          (by rw [hp]; exact List.mem_cons_self p0 rest)
        rcases hpp : processProblemLink c s pc doc p0.1 p0.2.1 with pr | n
        · simp [hpp] at hskip0
        · simp [hpp] at hfix0
      refine ⟨?_, ?_, ?_, ?_⟩
      · constructor
        · rintro ⟨f, sk, hf⟩
          rw [hval] at hf
          exact absurd hf (by simp)
        · rintro ⟨_, hne⟩
          exact absurd rfl hne
      · intro h0
        exact absurd h0 (by simp)
      · intro _ _
        exact ⟨hval, hskip⟩
      · intro f sk hf
        rw [hval] at hf
        exact absurd hf (by simp)
    · have hval : fix_inertias c s eig model doc iw it pc =
          .written (f0 :: frest) (skippedPairs c s eig pc model doc iw it) := by
        simp [fix_inertias, hp, hfx]
      refine ⟨?_, ?_, ?_, ?_⟩
      · constructor
        · rintro ⟨f, sk, hf⟩
          exact ⟨by simp, by simp⟩
        · intro _
          exact ⟨f0 :: frest, skippedPairs c s eig pc model doc iw it, hval⟩
      · intro h0
        exact absurd h0 (by simp)
      · intro _ h0
        exact absurd h0 (by simp)
      · intro f sk hf
        rw [hval] at hf
        have h2 := FixResult.written.inj hf
        refine ⟨?_, ?_, ?_⟩
        · exact h2.1.symm
        · rw [← h2.1]
          simp
        · exact h2.2.symm

/-- C8 (witness): the empty model halts with the no-qualifying-links
message, via the theorem. -/
theorem c8_no_output_without_updates_witness :
    fix_inertias cosZero sinZero eigDiag [] [] false false false =
      .halted "No links with failing checks at requested severities." :=
  (c8_no_output_without_updates cosZero sinZero eigDiag [] [] false false false).2.1 rfl

end PhysCheck
